import Mathlib

/-!
Shallow embedding of the microgrid EMS dispatch core
(battery model, dispatch strategies, stepwise simulation driver,
strategy registry) over exact rational arithmetic, together with
theorems settling the specification claims.

Sources embedded:
- `backend/battery_model.py` (class `Battery`)
- `backend/schedulers.py` (the five stepwise schedulers, the LP wrapper
  `mpc_optimizer`, the registry `STRATEGIES` / `get_strategy` /
  `StrategyManager`)
- `backend/simulator.py` (`run_simulation`, stepwise branch)
-/

/-- Mutable battery state, one Lean field per Python attribute of
`Battery.__init__` in `backend/battery_model.py`. -/
structure Battery where
  original_capacity : ℚ
  capacity : ℚ
  soc : ℚ
  max_charge : ℚ
  max_discharge : ℚ
  base_efficiency : ℚ
  efficiency : ℚ
  degradation_rate : ℚ
  total_throughput : ℚ
  cycles : ℚ
  state_of_health : ℚ
  temperature : ℚ
  optimal_temp : ℚ
  charge_events : ℕ
  discharge_events : ℕ
  peak_power_reached : ℚ
deriving Repr, DecidableEq

/-- Constructor `Battery.__init__(capacity, soc, max_charge, max_discharge, efficiency,
degradation_rate=0.00005, temperature=25.0)`. -/
def mkBattery (capacity soc max_charge max_discharge efficiency
    degradation_rate temperature : ℚ) : Battery :=
  { original_capacity := capacity
    capacity := capacity
    soc := soc
    max_charge := max_charge
    max_discharge := max_discharge
    base_efficiency := efficiency
    efficiency := efficiency
    degradation_rate := degradation_rate
    total_throughput := 0
    cycles := 0
    state_of_health := 100
    temperature := temperature
    optimal_temp := 25
    charge_events := 0
    discharge_events := 0
    peak_power_reached := 0 }

/-- Temperature factor `Battery.get_temperature_factor`: a step function of the deviation of the
temperature from the optimal temperature. -/
def Battery.get_temperature_factor (b : Battery) : ℚ :=
  let temp_diff := |b.temperature - b.optimal_temp|
  if temp_diff < 10 then 1
  else if temp_diff < 20 then 98 / 100
  else if temp_diff < 30 then 95 / 100
  else 90 / 100

/-- Efficiency update `Battery.update_efficiency`: `efficiency = base_efficiency * temp_factor *
(state_of_health / 100)`. -/
def Battery.update_efficiency (b : Battery) : Battery :=
  { b with efficiency :=
      b.base_efficiency * b.get_temperature_factor * (b.state_of_health / 100) }

/-- Degradation update `Battery.update_degradation(energy_processed)`: accumulates throughput,
recomputes cycles, capacity (throughput loss plus cycle loss, floored at 0),
state of health, and then efficiency. `0.2 / 3000` is written `(2/10) / 3000`. -/
def Battery.update_degradation (b : Battery) (energy_processed : ℚ) : Battery :=
  let total_throughput := b.total_throughput + energy_processed
  let cycles := total_throughput / (2 * b.original_capacity)
  let throughput_loss := total_throughput * b.degradation_rate
  let cycle_degradation_factor : ℚ := (2 / 10) / 3000
  let cycle_loss := cycles * cycle_degradation_factor * b.original_capacity
  let total_loss := throughput_loss + cycle_loss
  let capacity := max 0 (b.original_capacity - total_loss)
  let state_of_health := capacity / b.original_capacity * 100
  Battery.update_efficiency
    { b with
      total_throughput := total_throughput
      cycles := cycles
      capacity := capacity
      state_of_health := state_of_health }

/-- Charging `Battery.charge(energy)`: returns the accepted energy together with the
updated battery. Mirrors the Python statement order: event counter, limits,
peak tracking, SOC update with efficiency loss, clamp, degradation update. -/
def Battery.charge (b : Battery) (energy : ℚ) : ℚ × Battery :=
  let b := if energy > 0 then { b with charge_events := b.charge_events + 1 } else b
  let space_available := b.capacity - b.soc
  let c_rate_limit := b.capacity * 1
  let safe_charge_rate := min b.max_charge c_rate_limit
  let accepted_energy := min energy (min safe_charge_rate space_available)
  let b := if accepted_energy > b.peak_power_reached then
      { b with peak_power_reached := accepted_energy } else b
  let b := { b with soc := b.soc + accepted_energy * b.efficiency }
  let b := { b with soc := min b.soc b.capacity }
  let b := b.update_degradation accepted_energy
  (accepted_energy, b)

/-- Discharging `Battery.discharge(energy)`: returns the supplied energy together with the
updated battery. -/
def Battery.discharge (b : Battery) (energy : ℚ) : ℚ × Battery :=
  let b := if energy > 0 then { b with discharge_events := b.discharge_events + 1 } else b
  let c_rate_limit := b.capacity * 1
  let safe_discharge_rate := min b.max_discharge c_rate_limit
  let supplied_energy := min energy (min safe_discharge_rate b.soc)
  let b := if supplied_energy > b.peak_power_reached then
      { b with peak_power_reached := supplied_energy } else b
  let b := { b with soc := b.soc - supplied_energy }
  let b := b.update_degradation supplied_energy
  (supplied_energy, b)

/-- A dispatch decision, the dict returned by every stepwise scheduler in
`backend/schedulers.py`. -/
structure Decision where
  grid_buy : ℚ
  grid_sell : ℚ
  bat_charge : ℚ
  bat_discharge : ℚ
deriving Repr, DecidableEq

/-- Scheduler `naive_scheduler(load, solar, battery, prices, sell_price)`. -/
def naive_scheduler (load solar : ℚ) (_battery : Battery) (_prices _sell_price : ℚ) :
    Decision :=
  let net_load := load - solar
  if net_load > 0 then
    { grid_buy := net_load, grid_sell := 0, bat_charge := 0, bat_discharge := 0 }
  else
    { grid_buy := 0, grid_sell := |net_load|, bat_charge := 0, bat_discharge := 0 }

/-- Scheduler `self_consumption_scheduler(load, solar, battery, prices, sell_price)`. -/
def self_consumption_scheduler (load solar : ℚ) (battery : Battery)
    (_prices _sell_price : ℚ) : Decision :=
  let net_load := load - solar
  if net_load > 0 then
    let battery_available := battery.soc
    let from_battery := min net_load (min battery_available battery.max_discharge)
    let from_grid := max 0 (net_load - from_battery)
    { grid_buy := from_grid, grid_sell := 0, bat_charge := 0, bat_discharge := from_battery }
  else
    let surplus := |net_load|
    let battery_space := battery.capacity - battery.soc
    let to_battery := min surplus (min battery_space battery.max_charge)
    let to_grid := max 0 (surplus - to_battery)
    { grid_buy := 0, grid_sell := to_grid, bat_charge := to_battery, bat_discharge := 0 }

/-- Scheduler `peak_shaving_scheduler(load, solar, battery, prices, sell_price,
peak_threshold=5.0)`; the threshold is an explicit last argument here. -/
def peak_shaving_scheduler (load solar : ℚ) (battery : Battery)
    (_prices _sell_price : ℚ) (peak_threshold : ℚ) : Decision :=
  let net_load := load - solar
  if net_load > peak_threshold then
    let battery_help := min (net_load - peak_threshold) (min battery.soc battery.max_discharge)
    let from_grid := net_load - battery_help
    { grid_buy := from_grid, grid_sell := 0, bat_charge := 0, bat_discharge := battery_help }
  else if net_load > 0 then
    { grid_buy := net_load, grid_sell := 0, bat_charge := 0, bat_discharge := 0 }
  else
    let surplus := |net_load|
    let battery_space := battery.capacity - battery.soc
    let to_battery := min surplus (min battery_space battery.max_charge)
    let to_grid := max 0 (surplus - to_battery)
    { grid_buy := 0, grid_sell := to_grid, bat_charge := to_battery, bat_discharge := 0 }

/-- The fixed peak-hour set of `time_of_use_scheduler`. -/
def peak_hours : List ℕ := [7, 8, 9, 17, 18, 19, 20]

/-- Scheduler `time_of_use_scheduler(load, solar, battery, prices, sell_price,
current_hour=0)`; `current_hour` is an explicit last argument here (the Python
default 0 is applied at call sites that omit it, as `run_simulation` does).
`prices` is the already-scalar price for the hour, as passed by the stepwise
driver. -/
def time_of_use_scheduler (load solar : ℚ) (battery : Battery)
    (_prices _sell_price : ℚ) (current_hour : ℕ) : Decision :=
  let net_load := load - solar
  let is_peak := current_hour ∈ peak_hours
  if is_peak then
    if net_load > 0 then
      let battery_help := min net_load (min battery.soc battery.max_discharge)
      let from_grid := max 0 (net_load - battery_help)
      { grid_buy := from_grid, grid_sell := 0, bat_charge := 0, bat_discharge := battery_help }
    else
      let surplus := |net_load|
      { grid_buy := 0, grid_sell := surplus, bat_charge := 0, bat_discharge := 0 }
  else
    if net_load > 0 then
      { grid_buy := net_load, grid_sell := 0, bat_charge := 0, bat_discharge := 0 }
    else
      let surplus := |net_load|
      let battery_space := battery.capacity - battery.soc
      let to_battery := min surplus (min battery_space battery.max_charge)
      let to_grid := max 0 (surplus - to_battery)
      { grid_buy := 0, grid_sell := to_grid, bat_charge := to_battery, bat_discharge := 0 }

/-- Scheduler `greedy_scheduler(load, solar, battery, prices, sell_price,
current_hour=0)`; `prices` is the already-scalar current price (the
`isinstance` scalar branch of the Python code, which is the one the stepwise
driver exercises). -/
def greedy_scheduler (load solar : ℚ) (battery : Battery)
    (prices sell_price : ℚ) (_current_hour : ℕ) : Decision :=
  let current_price := prices
  let net_load := load - solar
  let high_price_threshold : ℚ := 10
  let low_price_threshold : ℚ := 4
  if current_price > high_price_threshold then
    if net_load > 0 then
      let battery_help := min net_load (min battery.soc battery.max_discharge)
      let from_grid := max 0 (net_load - battery_help)
      { grid_buy := from_grid, grid_sell := 0, bat_charge := 0, bat_discharge := battery_help }
    else
      let surplus := |net_load|
      { grid_buy := 0, grid_sell := surplus, bat_charge := 0, bat_discharge := 0 }
  else if current_price < low_price_threshold then
    if net_load > 0 then
      let battery_space := battery.capacity - battery.soc
      let extra_buy := min battery_space battery.max_charge
      { grid_buy := net_load, grid_sell := 0, bat_charge := extra_buy, bat_discharge := 0 }
    else
      let surplus := |net_load|
      let battery_space := battery.capacity - battery.soc
      let to_battery := min surplus (min battery_space battery.max_charge)
      let to_grid := max 0 (surplus - to_battery)
      { grid_buy := 0, grid_sell := to_grid, bat_charge := to_battery, bat_discharge := 0 }
  else
    self_consumption_scheduler load solar battery prices sell_price

/-- The type of a stepwise strategy as invoked by the driver:
`(load[t], solar[t], battery, prices[t], sell_price) -> decision`. -/
def StepStrategy : Type := ℚ → ℚ → Battery → ℚ → ℚ → Decision

/-- One row of the simulation ledger built by `run_simulation` (stepwise
branch), `backend/simulator.py`. -/
structure LedgerRow where
  grid_buy : ℚ
  grid_sell : ℚ
  bat_charge : ℚ
  bat_discharge : ℚ
  battery_soc : ℚ
  cost : ℚ
  solar : ℚ
  load : ℚ
  net_load : ℚ
  price : ℚ
deriving Repr, DecidableEq

/-- The stepwise (`mode="step"`) branch of `run_simulation`: for each hour,
call the strategy on the hour scalars, execute at most one battery action
(charge takes precedence via the `elif`), record the decision's grid values,
the actual battery energies and the post-operation state of charge. -/
def run_simulation_step (strategy_func : StepStrategy) (sell_price : ℚ) :
    Battery → List ℚ → List ℚ → List ℚ → List LedgerRow
  | battery, load :: loads, solar :: solars, price :: prices =>
    let decision := strategy_func load solar battery price sell_price
    let step :=
      if decision.bat_charge > 0 then
        let r := battery.charge decision.bat_charge
        (r.1, (0 : ℚ), r.2)
      else if decision.bat_discharge > 0 then
        let r := battery.discharge decision.bat_discharge
        ((0 : ℚ), r.1, r.2)
      else ((0 : ℚ), (0 : ℚ), battery)
    let actual_charge := step.1
    let actual_discharge := step.2.1
    let battery' := step.2.2
    let cost := decision.grid_buy * price - decision.grid_sell * sell_price
    let row : LedgerRow :=
      { grid_buy := decision.grid_buy
        grid_sell := decision.grid_sell
        bat_charge := actual_charge
        bat_discharge := actual_discharge
        battery_soc := battery'.soc
        cost := cost
        solar := solar
        load := load
        net_load := load - solar
        price := price }
    row :: run_simulation_step strategy_func sell_price battery' loads solars prices
  | _, _, _, _ => []

/-- The per-variable values an external LP solve produces (`pulp.value`,
which is `None` for variables the solver left unset). The CBC solver itself
is a third-party black box outside this repository; it is abstracted as a
function parameter below. -/
structure LPSolution where
  grid_buy : ℕ → Option ℚ
  grid_sell : ℕ → Option ℚ
  bat_charge : ℕ → Option ℚ
  bat_discharge : ℕ → Option ℚ
  soc : ℕ → Option ℚ

/-- An abstract LP solve step: from the data `linear_optimizer` builds its
problem from, to per-variable optional values. -/
def LPSolver : Type := List ℚ → List ℚ → Battery → List ℚ → ℚ → LPSolution

/-- The full-horizon plan dict returned by `linear_optimizer`. -/
structure LPPlan where
  grid_buy : List ℚ
  grid_sell : List ℚ
  bat_charge : List ℚ
  bat_discharge : List ℚ
  battery_soc : List ℚ
  cost : List ℚ
deriving DecidableEq

/-- Optimizer `linear_optimizer(load_profile, solar_profile, battery, prices,
sell_price)`: builds and solves the LP (the solve abstracted as `lp_solve`),
then extracts each series with `pulp.value(...) or 0.0` and computes the
per-hour cost series. -/
def linear_optimizer (lp_solve : LPSolver) (load_profile solar_profile : List ℚ)
    (battery : Battery) (prices : List ℚ) (sell_price : ℚ) : LPPlan :=
  let hours := load_profile.length
  let sol := lp_solve load_profile solar_profile battery prices sell_price
  { grid_buy := (List.range hours).map fun t => (sol.grid_buy t).getD 0
    grid_sell := (List.range hours).map fun t => (sol.grid_sell t).getD 0
    bat_charge := (List.range hours).map fun t => (sol.bat_charge t).getD 0
    bat_discharge := (List.range hours).map fun t => (sol.bat_discharge t).getD 0
    battery_soc := (List.range hours).map fun t => (sol.soc t).getD 0
    cost := (List.range hours).map fun t =>
      (sol.grid_buy t).getD 0 * prices.getD t 0 - (sol.grid_sell t).getD 0 * sell_price }

/-- Optimizer `mpc_optimizer(load_profile, solar_profile, battery, prices, sell_price,
horizon=24, current_hour=0)`: its body is a single call to `linear_optimizer`
on the first five arguments; `horizon` and `current_hour` are unused. -/
def mpc_optimizer (lp_solve : LPSolver) (load_profile solar_profile : List ℚ)
    (battery : Battery) (prices : List ℚ) (sell_price : ℚ)
    (_horizon _current_hour : ℕ) : LPPlan :=
  linear_optimizer lp_solve load_profile solar_profile battery prices sell_price

/-- Tags for the seven registered strategy implementations; the registry maps
name strings to implementations, modelled here as a name-to-tag association
mirroring the Python dict `STRATEGIES`. -/
inductive StrategyTag where
  | naive
  | self_consumption
  | peak_shaving
  | time_of_use
  | greedy
  | linear_optimizer
  | mpc
deriving Repr, DecidableEq

/-- The registry dict `STRATEGIES` of `backend/schedulers.py`. -/
def STRATEGIES : List (String × StrategyTag) :=
  [("naive", StrategyTag.naive),
   ("self_consumption", StrategyTag.self_consumption),
   ("peak_shaving", StrategyTag.peak_shaving),
   ("time_of_use", StrategyTag.time_of_use),
   ("greedy", StrategyTag.greedy),
   ("linear_optimizer", StrategyTag.linear_optimizer),
   ("mpc", StrategyTag.mpc)]

/-- Lookup `get_strategy(name)`: `STRATEGIES.get(name, naive_scheduler)`. -/
def get_strategy (name : String) : StrategyTag :=
  (STRATEGIES.lookup name).getD StrategyTag.naive

/-- Class `StrategyManager`: its `__init__` stores the registry. -/
structure StrategyManager where
  strategies : List (String × StrategyTag)

/-- Constructor call `StrategyManager()`. -/
def mkStrategyManager : StrategyManager :=
  { strategies := STRATEGIES }

/-- Alias for the module-level `get_strategy`, so the method below can refer
to it unambiguously. -/
def moduleGetStrategy : String → StrategyTag := get_strategy

/-- Method `StrategyManager.get_strategy(self, name)`: delegates to the module-level
`get_strategy`. -/
def StrategyManager.get_strategy (_self : StrategyManager) (name : String) :
    StrategyTag :=
  moduleGetStrategy name

/-- A single battery operation request, for stating properties about
sequences of `charge`/`discharge` calls. -/
inductive BatteryOp where
  | charge (energy : ℚ)
  | discharge (energy : ℚ)
deriving Repr, DecidableEq

/-- The requested energy of an operation. -/
def BatteryOp.energy : BatteryOp → ℚ
  | .charge e => e
  | .discharge e => e

/-- Apply one operation to a battery, keeping the post-state. -/
def BatteryOp.apply (b : Battery) : BatteryOp → Battery
  | .charge e => (b.charge e).2
  | .discharge e => (b.discharge e).2

/-- Run a sequence of operations left to right. -/
def Battery.runOps (b : Battery) : List BatteryOp → Battery
  | [] => b
  | op :: ops => Battery.runOps (op.apply b) ops

/-- The state-of-charge invariant `0 ≤ soc ≤ capacity` holds at entry to
every operation of the sequence. -/
def Battery.validTrace (b : Battery) : List BatteryOp → Prop
  | [] => True
  | op :: ops => (0 ≤ b.soc ∧ b.soc ≤ b.capacity) ∧ Battery.validTrace (op.apply b) ops

/-- The total capacity loss `update_degradation` computes from a cumulative
throughput value: the throughput-proportional term plus the cycle-proportional
term. -/
def degLoss (original_capacity degradation_rate total_throughput : ℚ) : ℚ :=
  total_throughput * degradation_rate +
    total_throughput / (2 * original_capacity) * ((2 / 10) / 3000) * original_capacity

/-- Non-negativity assumptions on the constant battery parameters. -/
def Battery.paramsOK (b : Battery) : Prop :=
  0 < b.original_capacity ∧ 0 ≤ b.degradation_rate ∧
    0 ≤ b.max_charge ∧ 0 ≤ b.max_discharge

/-- The `capacity` and `state_of_health` fields agree with what
`update_degradation` would recompute from the current throughput; this holds
for a freshly constructed battery and is re-established by every operation. -/
def Battery.degConsistent (b : Battery) : Prop :=
  b.capacity = max 0 (b.original_capacity -
    degLoss b.original_capacity b.degradation_rate b.total_throughput) ∧
  b.state_of_health = b.capacity / b.original_capacity * 100

/-- Characterization of `Battery.charge` as an explicit record. -/
theorem charge_eq (b : Battery) (e : ℚ) :
    b.charge e =
      (let accepted := min e (min (min b.max_charge (b.capacity * 1)) (b.capacity - b.soc))
       let capacity' := max 0 (b.original_capacity -
         degLoss b.original_capacity b.degradation_rate (b.total_throughput + accepted))
       let soh' := capacity' / b.original_capacity * 100
       (accepted,
         { original_capacity := b.original_capacity
           capacity := capacity'
           soc := min (b.soc + accepted * b.efficiency) b.capacity
           max_charge := b.max_charge
           max_discharge := b.max_discharge
           base_efficiency := b.base_efficiency
           efficiency := b.base_efficiency * b.get_temperature_factor * (soh' / 100)
           degradation_rate := b.degradation_rate
           total_throughput := b.total_throughput + accepted
           cycles := (b.total_throughput + accepted) / (2 * b.original_capacity)
           state_of_health := soh'
           temperature := b.temperature
           optimal_temp := b.optimal_temp
           charge_events := if e > 0 then b.charge_events + 1 else b.charge_events
           discharge_events := b.discharge_events
           peak_power_reached := if accepted > b.peak_power_reached then accepted
             else b.peak_power_reached })) := by
  simp only [Battery.charge, Battery.update_degradation, Battery.update_efficiency,
    Battery.get_temperature_factor, degLoss]
  by_cases h1 : e > 0 <;> simp only [h1, if_true, if_false, reduceIte] <;>
    by_cases h2 : min e (min (min b.max_charge (b.capacity * 1)) (b.capacity - b.soc)) >
      b.peak_power_reached <;>
    simp only [h2, if_true, if_false, reduceIte]

/-- Characterization of `Battery.discharge` as an explicit record. -/
theorem discharge_eq (b : Battery) (e : ℚ) :
    b.discharge e =
      (let supplied := min e (min (min b.max_discharge (b.capacity * 1)) b.soc)
       let capacity' := max 0 (b.original_capacity -
         degLoss b.original_capacity b.degradation_rate (b.total_throughput + supplied))
       let soh' := capacity' / b.original_capacity * 100
       (supplied,
         { original_capacity := b.original_capacity
           capacity := capacity'
           soc := b.soc - supplied
           max_charge := b.max_charge
           max_discharge := b.max_discharge
           base_efficiency := b.base_efficiency
           efficiency := b.base_efficiency * b.get_temperature_factor * (soh' / 100)
           degradation_rate := b.degradation_rate
           total_throughput := b.total_throughput + supplied
           cycles := (b.total_throughput + supplied) / (2 * b.original_capacity)
           state_of_health := soh'
           temperature := b.temperature
           optimal_temp := b.optimal_temp
           charge_events := b.charge_events
           discharge_events := if e > 0 then b.discharge_events + 1 else b.discharge_events
           peak_power_reached := if supplied > b.peak_power_reached then supplied
             else b.peak_power_reached })) := by
  simp only [Battery.discharge, Battery.update_degradation, Battery.update_efficiency,
    Battery.get_temperature_factor, degLoss]
  by_cases h1 : e > 0 <;> simp only [h1, if_true, if_false, reduceIte] <;>
    by_cases h2 : min e (min (min b.max_discharge (b.capacity * 1)) b.soc) >
      b.peak_power_reached <;>
    simp only [h2, if_true, if_false, reduceIte]

theorem charge_accepted_nonneg (b : Battery) (e : ℚ) (h0 : 0 ≤ b.soc)
    (h1 : b.soc ≤ b.capacity) (hmc : 0 ≤ b.max_charge) (he : 0 ≤ e) :
    0 ≤ (b.charge e).1 := by
  have hcap : 0 ≤ b.capacity := h0.trans h1
  rw [charge_eq]
  exact le_min he (le_min (le_min hmc (by simpa using hcap)) (sub_nonneg.mpr h1))

theorem discharge_supplied_nonneg (b : Battery) (e : ℚ) (h0 : 0 ≤ b.soc)
    (h1 : b.soc ≤ b.capacity) (hmd : 0 ≤ b.max_discharge) (he : 0 ≤ e) :
    0 ≤ (b.discharge e).1 := by
  have hcap : 0 ≤ b.capacity := h0.trans h1
  rw [discharge_eq]
  exact le_min he (le_min (le_min hmd (by simpa using hcap)) h0)

theorem charge_soc_le_entry_capacity (b : Battery) (e : ℚ) :
    (b.charge e).2.soc ≤ b.capacity := by
  rw [charge_eq]
  exact min_le_right _ _

theorem charge_soc_nonneg (b : Battery) (e : ℚ) (h0 : 0 ≤ b.soc)
    (h1 : b.soc ≤ b.capacity) (hmc : 0 ≤ b.max_charge) (heff : 0 ≤ b.efficiency)
    (he : 0 ≤ e) : 0 ≤ (b.charge e).2.soc := by
  have hacc := charge_accepted_nonneg b e h0 h1 hmc he
  rw [charge_eq] at hacc ⊢
  exact le_min (add_nonneg h0 (mul_nonneg hacc heff)) (h0.trans h1)

theorem discharge_soc_nonneg (b : Battery) (e : ℚ) :
    0 ≤ (b.discharge e).2.soc := by
  rw [discharge_eq]
  exact sub_nonneg.mpr ((min_le_right _ _).trans (min_le_right _ _))

theorem discharge_soc_le_entry_capacity (b : Battery) (e : ℚ) (h0 : 0 ≤ b.soc)
    (h1 : b.soc ≤ b.capacity) (hmd : 0 ≤ b.max_discharge) (he : 0 ≤ e) :
    (b.discharge e).2.soc ≤ b.capacity := by
  have hsup := discharge_supplied_nonneg b e h0 h1 hmd he
  rw [discharge_eq] at hsup ⊢
  have : b.soc - min e (min (min b.max_discharge (b.capacity * 1)) b.soc) ≤ b.soc :=
    sub_le_self _ hsup
  exact this.trans h1

/-- Claim C2, counterexample: for the battery constructed with capacity 10,
soc 0, power ratings 10, efficiency 1, default degradation rate, `charge(10)`
returns with `state_of_charge = 10` strictly above the recomputed
`capacity = 10 - 1/1200`, so the invariant `state_of_charge ≤ capacity` fails
immediately after `charge` returns. -/
theorem c2_full_charge_overshoot :
    ((mkBattery 10 0 10 10 1 (1/20000) 25).charge 10).2.capacity <
      ((mkBattery 10 0 10 10 1 (1/20000) 25).charge 10).2.soc := by
  norm_num [mkBattery, Battery.charge, Battery.update_degradation,
    Battery.update_efficiency, Battery.get_temperature_factor]

/-- Claim C2, amended: from any state with `0 ≤ state_of_charge ≤ capacity`,
non-negative power ratings and efficiency, and a non-negative request, after
`charge(e)` and after `discharge(e)` the state of charge satisfies
`0 ≤ state_of_charge` and does not exceed the `capacity` value read at entry
to the operation; the bound against the capacity recomputed by the
degradation update can fail (see the counterexample). -/
theorem battery_soc_bounds_after_ops (b : Battery) (e : ℚ)
    (h0 : 0 ≤ b.soc) (h1 : b.soc ≤ b.capacity) (hmc : 0 ≤ b.max_charge)
    (hmd : 0 ≤ b.max_discharge) (heff : 0 ≤ b.efficiency) (he : 0 ≤ e) :
    (0 ≤ (b.charge e).2.soc ∧ (b.charge e).2.soc ≤ b.capacity) ∧
    (0 ≤ (b.discharge e).2.soc ∧ (b.discharge e).2.soc ≤ b.capacity) :=
  ⟨⟨charge_soc_nonneg b e h0 h1 hmc heff he, charge_soc_le_entry_capacity b e⟩,
   ⟨discharge_soc_nonneg b e, discharge_soc_le_entry_capacity b e h0 h1 hmd he⟩⟩

/-- Witness for `battery_soc_bounds_after_ops` at capacity 10, soc 2, power
ratings 5, efficiency 9/10, request 4. -/
theorem battery_soc_bounds_after_ops_witness :
    (0 ≤ (mkBattery 10 2 5 5 (9/10) (1/20000) 25).soc) ∧
    ((mkBattery 10 2 5 5 (9/10) (1/20000) 25).soc ≤
      (mkBattery 10 2 5 5 (9/10) (1/20000) 25).capacity) ∧
    ((0 ≤ ((mkBattery 10 2 5 5 (9/10) (1/20000) 25).charge 4).2.soc ∧
      ((mkBattery 10 2 5 5 (9/10) (1/20000) 25).charge 4).2.soc ≤
        (mkBattery 10 2 5 5 (9/10) (1/20000) 25).capacity) ∧
     (0 ≤ ((mkBattery 10 2 5 5 (9/10) (1/20000) 25).discharge 4).2.soc ∧
      ((mkBattery 10 2 5 5 (9/10) (1/20000) 25).discharge 4).2.soc ≤
        (mkBattery 10 2 5 5 (9/10) (1/20000) 25).capacity)) :=
  ⟨by norm_num [mkBattery], by norm_num [mkBattery],
   battery_soc_bounds_after_ops (mkBattery 10 2 5 5 (9/10) (1/20000) 25) 4
     (by norm_num [mkBattery]) (by norm_num [mkBattery]) (by norm_num [mkBattery])
     (by norm_num [mkBattery]) (by norm_num [mkBattery]) (by norm_num)⟩

/-- Claim C3 (confirmed): with `0 ≤ state_of_charge ≤ capacity` and a
non-negative request, `charge` returns
`min(request, 1*capacity, max_charge, capacity - soc)` and sets
`soc := min(soc + accepted * efficiency, capacity)`; `discharge` returns
`min(request, 1*capacity, max_discharge, soc)` and decreases `soc` by exactly
the supplied energy. -/
theorem battery_charge_discharge_formulas (b : Battery) (e : ℚ)
    (h0 : 0 ≤ b.soc) (h1 : b.soc ≤ b.capacity) (he : 0 ≤ e) :
    (b.charge e).1 = min e (min (1 * b.capacity) (min b.max_charge (b.capacity - b.soc))) ∧
    (b.charge e).2.soc = min (b.soc + (b.charge e).1 * b.efficiency) b.capacity ∧
    (b.discharge e).1 = min e (min (1 * b.capacity) (min b.max_discharge b.soc)) ∧
    (b.discharge e).2.soc = b.soc - (b.discharge e).1 := by
  refine ⟨?_, ?_, ?_, ?_⟩
  · rw [charge_eq]
    simp [min_assoc, min_comm, min_left_comm, mul_one, one_mul]
  · rw [charge_eq]
  · rw [discharge_eq]
    simp [min_assoc, min_comm, min_left_comm, mul_one, one_mul]
  · rw [discharge_eq]

/-- Witness for `battery_charge_discharge_formulas` at capacity 10, soc 2,
power ratings 5, efficiency 9/10, request 3. -/
theorem battery_charge_discharge_formulas_witness :
    (0 ≤ (mkBattery 10 2 5 5 (9/10) (1/20000) 25).soc) ∧
    ((mkBattery 10 2 5 5 (9/10) (1/20000) 25).soc ≤
      (mkBattery 10 2 5 5 (9/10) (1/20000) 25).capacity) ∧
    (((mkBattery 10 2 5 5 (9/10) (1/20000) 25).charge 3).1 =
        min 3 (min (1 * (mkBattery 10 2 5 5 (9/10) (1/20000) 25).capacity)
          (min (mkBattery 10 2 5 5 (9/10) (1/20000) 25).max_charge
            ((mkBattery 10 2 5 5 (9/10) (1/20000) 25).capacity -
              (mkBattery 10 2 5 5 (9/10) (1/20000) 25).soc))) ∧
      ((mkBattery 10 2 5 5 (9/10) (1/20000) 25).charge 3).2.soc =
        min ((mkBattery 10 2 5 5 (9/10) (1/20000) 25).soc +
          ((mkBattery 10 2 5 5 (9/10) (1/20000) 25).charge 3).1 *
            (mkBattery 10 2 5 5 (9/10) (1/20000) 25).efficiency)
          (mkBattery 10 2 5 5 (9/10) (1/20000) 25).capacity ∧
      ((mkBattery 10 2 5 5 (9/10) (1/20000) 25).discharge 3).1 =
        min 3 (min (1 * (mkBattery 10 2 5 5 (9/10) (1/20000) 25).capacity)
          (min (mkBattery 10 2 5 5 (9/10) (1/20000) 25).max_discharge
            (mkBattery 10 2 5 5 (9/10) (1/20000) 25).soc)) ∧
      ((mkBattery 10 2 5 5 (9/10) (1/20000) 25).discharge 3).2.soc =
        (mkBattery 10 2 5 5 (9/10) (1/20000) 25).soc -
          ((mkBattery 10 2 5 5 (9/10) (1/20000) 25).discharge 3).1) :=
  ⟨by norm_num [mkBattery], by norm_num [mkBattery],
   battery_charge_discharge_formulas (mkBattery 10 2 5 5 (9/10) (1/20000) 25) 3
     (by norm_num [mkBattery]) (by norm_num [mkBattery]) (by norm_num)⟩

/-- Claim C4, counterexample: `charge(-5)` on a battery with soc 1 returns a
negative accepted energy and drives the state of charge to `-7/2`, so
negative requests are not clamped and a caller can overdraw the battery. -/
theorem c4_negative_request_overdraw :
    ((mkBattery 10 1 5 5 (9/10) (1/20000) 25).charge (-5)).1 < 0 ∧
    ((mkBattery 10 1 5 5 (9/10) (1/20000) 25).charge (-5)).2.soc < 0 := by
  constructor <;>
    norm_num [mkBattery, Battery.charge, Battery.update_degradation,
      Battery.update_efficiency, Battery.get_temperature_factor]

/-- Claim C4, amended: for every non-negative request from a state with
`0 ≤ state_of_charge ≤ capacity` and non-negative ratings and efficiency,
`charge` and `discharge` are total (never raise), return non-negative
accepted/supplied energy, and never drive the state of charge below 0;
requests of negative sign are not clamped (see the counterexample). -/
theorem battery_never_overdraw_nonneg_requests (b : Battery) (e : ℚ)
    (h0 : 0 ≤ b.soc) (h1 : b.soc ≤ b.capacity) (hmc : 0 ≤ b.max_charge)
    (hmd : 0 ≤ b.max_discharge) (heff : 0 ≤ b.efficiency) (he : 0 ≤ e) :
    0 ≤ (b.charge e).1 ∧ 0 ≤ (b.discharge e).1 ∧
    0 ≤ (b.charge e).2.soc ∧ 0 ≤ (b.discharge e).2.soc :=
  ⟨charge_accepted_nonneg b e h0 h1 hmc he,
   discharge_supplied_nonneg b e h0 h1 hmd he,
   charge_soc_nonneg b e h0 h1 hmc heff he,
   discharge_soc_nonneg b e⟩

/-- Witness for `battery_never_overdraw_nonneg_requests` at capacity 10,
soc 9, power ratings 5, efficiency 9/10, request 7. -/
theorem battery_never_overdraw_nonneg_requests_witness :
    (0 ≤ (mkBattery 10 9 5 5 (9/10) (1/20000) 25).soc) ∧
    ((mkBattery 10 9 5 5 (9/10) (1/20000) 25).soc ≤
      (mkBattery 10 9 5 5 (9/10) (1/20000) 25).capacity) ∧
    (0 ≤ ((mkBattery 10 9 5 5 (9/10) (1/20000) 25).charge 7).1 ∧
     0 ≤ ((mkBattery 10 9 5 5 (9/10) (1/20000) 25).discharge 7).1 ∧
     0 ≤ ((mkBattery 10 9 5 5 (9/10) (1/20000) 25).charge 7).2.soc ∧
     0 ≤ ((mkBattery 10 9 5 5 (9/10) (1/20000) 25).discharge 7).2.soc) :=
  ⟨by norm_num [mkBattery], by norm_num [mkBattery],
   battery_never_overdraw_nonneg_requests (mkBattery 10 9 5 5 (9/10) (1/20000) 25) 7
     (by norm_num [mkBattery]) (by norm_num [mkBattery]) (by norm_num [mkBattery])
     (by norm_num [mkBattery]) (by norm_num [mkBattery]) (by norm_num)⟩

theorem degLoss_mono (C0 rate : ℚ) (hC0 : 0 < C0) (hrate : 0 ≤ rate)
    {T T' : ℚ} (h : T ≤ T') : degLoss C0 rate T ≤ degLoss C0 rate T' := by
  unfold degLoss
  have h2 : (0:ℚ) < 2 * C0 := by linarith
  have hdiv : T / (2 * C0) * ((2 / 10) / 3000) * C0 ≤
      T' / (2 * C0) * ((2 / 10) / 3000) * C0 := by
    gcongr
  nlinarith [mul_le_mul_of_nonneg_right h hrate]

theorem charge_capacity_eq (b : Battery) (e : ℚ) :
    (b.charge e).2.capacity = max 0 (b.original_capacity -
      degLoss b.original_capacity b.degradation_rate
        (b.total_throughput + (b.charge e).1)) := by
  rw [charge_eq]

theorem charge_soh_eq (b : Battery) (e : ℚ) :
    (b.charge e).2.state_of_health =
      (b.charge e).2.capacity / b.original_capacity * 100 := by
  rw [charge_eq]

theorem charge_throughput_eq (b : Battery) (e : ℚ) :
    (b.charge e).2.total_throughput = b.total_throughput + (b.charge e).1 := by
  rw [charge_eq]

theorem charge_const_fields (b : Battery) (e : ℚ) :
    (b.charge e).2.original_capacity = b.original_capacity ∧
    (b.charge e).2.degradation_rate = b.degradation_rate ∧
    (b.charge e).2.max_charge = b.max_charge ∧
    (b.charge e).2.max_discharge = b.max_discharge := by
  rw [charge_eq]
  exact ⟨rfl, rfl, rfl, rfl⟩

theorem discharge_capacity_eq (b : Battery) (e : ℚ) :
    (b.discharge e).2.capacity = max 0 (b.original_capacity -
      degLoss b.original_capacity b.degradation_rate
        (b.total_throughput + (b.discharge e).1)) := by
  rw [discharge_eq]

theorem discharge_soh_eq (b : Battery) (e : ℚ) :
    (b.discharge e).2.state_of_health =
      (b.discharge e).2.capacity / b.original_capacity * 100 := by
  rw [discharge_eq]

theorem discharge_throughput_eq (b : Battery) (e : ℚ) :
    (b.discharge e).2.total_throughput = b.total_throughput + (b.discharge e).1 := by
  rw [discharge_eq]

theorem discharge_const_fields (b : Battery) (e : ℚ) :
    (b.discharge e).2.original_capacity = b.original_capacity ∧
    (b.discharge e).2.degradation_rate = b.degradation_rate ∧
    (b.discharge e).2.max_charge = b.max_charge ∧
    (b.discharge e).2.max_discharge = b.max_discharge := by
  rw [discharge_eq]
  exact ⟨rfl, rfl, rfl, rfl⟩

theorem charge_cap_soh_mono (b : Battery) (e : ℚ) (hP : b.paramsOK)
    (hcons : b.degConsistent) (h0 : 0 ≤ b.soc) (h1 : b.soc ≤ b.capacity)
    (he : 0 ≤ e) :
    (b.charge e).2.capacity ≤ b.capacity ∧
      (b.charge e).2.state_of_health ≤ b.state_of_health := by
  obtain ⟨hC0, hrate, hmc, _⟩ := hP
  obtain ⟨hcap, hsoh⟩ := hcons
  have hacc := charge_accepted_nonneg b e h0 h1 hmc he
  have hT : b.total_throughput ≤ b.total_throughput + (b.charge e).1 :=
    le_add_of_nonneg_right hacc
  have hloss := degLoss_mono b.original_capacity b.degradation_rate hC0 hrate hT
  have hc : (b.charge e).2.capacity ≤ b.capacity := by
    rw [charge_capacity_eq, hcap]
    exact max_le_max le_rfl (sub_le_sub_left hloss _)
  refine ⟨hc, ?_⟩
  rw [charge_soh_eq, hsoh]
  gcongr

theorem discharge_cap_soh_mono (b : Battery) (e : ℚ) (hP : b.paramsOK)
    (hcons : b.degConsistent) (h0 : 0 ≤ b.soc) (h1 : b.soc ≤ b.capacity)
    (he : 0 ≤ e) :
    (b.discharge e).2.capacity ≤ b.capacity ∧
      (b.discharge e).2.state_of_health ≤ b.state_of_health := by
  obtain ⟨hC0, hrate, _, hmd⟩ := hP
  obtain ⟨hcap, hsoh⟩ := hcons
  have hsup := discharge_supplied_nonneg b e h0 h1 hmd he
  have hT : b.total_throughput ≤ b.total_throughput + (b.discharge e).1 :=
    le_add_of_nonneg_right hsup
  have hloss := degLoss_mono b.original_capacity b.degradation_rate hC0 hrate hT
  have hc : (b.discharge e).2.capacity ≤ b.capacity := by
    rw [discharge_capacity_eq, hcap]
    exact max_le_max le_rfl (sub_le_sub_left hloss _)
  refine ⟨hc, ?_⟩
  rw [discharge_soh_eq, hsoh]
  gcongr

theorem charge_paramsOK (b : Battery) (e : ℚ) (hP : b.paramsOK) :
    ((b.charge e).2).paramsOK := by
  obtain ⟨h1, h2, h3, h4⟩ := hP
  obtain ⟨e1, e2, e3, e4⟩ := charge_const_fields b e
  exact ⟨e1 ▸ h1, e2 ▸ h2, e3 ▸ h3, e4 ▸ h4⟩

theorem discharge_paramsOK (b : Battery) (e : ℚ) (hP : b.paramsOK) :
    ((b.discharge e).2).paramsOK := by
  obtain ⟨h1, h2, h3, h4⟩ := hP
  obtain ⟨e1, e2, e3, e4⟩ := discharge_const_fields b e
  exact ⟨e1 ▸ h1, e2 ▸ h2, e3 ▸ h3, e4 ▸ h4⟩

theorem charge_degConsistent (b : Battery) (e : ℚ) :
    ((b.charge e).2).degConsistent := by
  obtain ⟨e1, e2, _, _⟩ := charge_const_fields b e
  unfold Battery.degConsistent
  refine ⟨?_, ?_⟩
  · rw [charge_throughput_eq, e1, e2, charge_capacity_eq]
  · rw [charge_soh_eq, e1]

theorem discharge_degConsistent (b : Battery) (e : ℚ) :
    ((b.discharge e).2).degConsistent := by
  obtain ⟨e1, e2, _, _⟩ := discharge_const_fields b e
  unfold Battery.degConsistent
  refine ⟨?_, ?_⟩
  · rw [discharge_throughput_eq, e1, e2, discharge_capacity_eq]
  · rw [discharge_soh_eq, e1]

theorem apply_cap_soh_mono (b : Battery) (op : BatteryOp) (hP : b.paramsOK)
    (hcons : b.degConsistent) (h0 : 0 ≤ b.soc) (h1 : b.soc ≤ b.capacity)
    (he : 0 ≤ op.energy) :
    (op.apply b).capacity ≤ b.capacity ∧
      (op.apply b).state_of_health ≤ b.state_of_health := by
  cases op with
  | charge e => exact charge_cap_soh_mono b e hP hcons h0 h1 he
  | discharge e => exact discharge_cap_soh_mono b e hP hcons h0 h1 he

theorem apply_paramsOK (b : Battery) (op : BatteryOp) (hP : b.paramsOK) :
    (op.apply b).paramsOK := by
  cases op with
  | charge e => exact charge_paramsOK b e hP
  | discharge e => exact discharge_paramsOK b e hP

theorem apply_degConsistent (b : Battery) (op : BatteryOp) :
    (op.apply b).degConsistent := by
  cases op with
  | charge e => exact charge_degConsistent b e
  | discharge e => exact discharge_degConsistent b e

theorem runOps_take_adjacent_mono (ops : List BatteryOp) (b : Battery) (i : ℕ)
    (hP : b.paramsOK) (hcons : b.degConsistent)
    (hpos : ∀ op ∈ ops, 0 < op.energy) (hvalid : b.validTrace ops)
    (hi : i < ops.length) :
    (b.runOps (ops.take (i+1))).capacity ≤ (b.runOps (ops.take i)).capacity ∧
    (b.runOps (ops.take (i+1))).state_of_health ≤
      (b.runOps (ops.take i)).state_of_health := by
  induction ops generalizing b i with
  | nil => simp at hi
  | cons op ops ih =>
    obtain ⟨⟨hs0, hs1⟩, hvt⟩ := hvalid
    cases i with
    | zero =>
      simp only [List.take_succ_cons, List.take_zero, Battery.runOps]
      exact apply_cap_soh_mono b op hP hcons hs0 hs1
        (hpos op (List.mem_cons_self op ops)).le
    | succ k =>
      simp only [List.take_succ_cons, Battery.runOps]
      exact ih (op.apply b) k (apply_paramsOK b op hP) (apply_degConsistent b op)
        (fun o ho => hpos o (List.mem_cons_of_mem _ ho)) hvt
        (Nat.lt_of_succ_lt_succ hi)

theorem mkBattery_degConsistent (capacity soc max_charge max_discharge
    efficiency degradation_rate temperature : ℚ) (hcap : 0 < capacity) :
    (mkBattery capacity soc max_charge max_discharge efficiency
      degradation_rate temperature).degConsistent := by
  unfold Battery.degConsistent mkBattery degLoss
  constructor
  · norm_num [max_eq_right hcap.le]
  · rw [div_self (ne_of_gt hcap)]
    norm_num

/-- Claim C7, counterexample: from the fresh battery (capacity 10, soc 0,
ratings 10, efficiency 1, default degradation rate), the sequence
`charge(10); charge(1)` has strictly positive requested energies, yet both
`capacity` and `state_of_health` strictly increase at the second operation:
after the first charge `soc = 10 > capacity`, so the second charge accepts a
negative energy, reducing cumulative throughput. -/
theorem c7_capacity_increases_after_overshoot :
    (∀ op ∈ [BatteryOp.charge 10, BatteryOp.charge 1], 0 < op.energy) ∧
    ((mkBattery 10 0 10 10 1 (1/20000) 25).runOps [BatteryOp.charge 10]).capacity <
      ((mkBattery 10 0 10 10 1 (1/20000) 25).runOps
        [BatteryOp.charge 10, BatteryOp.charge 1]).capacity ∧
    ((mkBattery 10 0 10 10 1 (1/20000) 25).runOps
        [BatteryOp.charge 10]).state_of_health <
      ((mkBattery 10 0 10 10 1 (1/20000) 25).runOps
        [BatteryOp.charge 10, BatteryOp.charge 1]).state_of_health := by
  refine ⟨?_, ?_, ?_⟩
  · intro op hop
    fin_cases hop <;> norm_num [BatteryOp.energy]
  · norm_num [Battery.runOps, BatteryOp.apply, mkBattery, Battery.charge,
      Battery.update_degradation, Battery.update_efficiency,
      Battery.get_temperature_factor]
  · norm_num [Battery.runOps, BatteryOp.apply, mkBattery, Battery.charge,
      Battery.update_degradation, Battery.update_efficiency,
      Battery.get_temperature_factor]

/-- Claim C7, amended: over any finite sequence of charge/discharge
operations with strictly positive requested energies, starting from a freshly
constructed battery with positive capacity and non-negative rate/power
parameters, and provided `0 ≤ state_of_charge ≤ capacity` holds at entry to
every operation of the sequence, each successive observed `capacity` is less
than or equal to the previous one and likewise for `state_of_health`. (If the
state of charge ever exceeds `capacity` — reachable, see the counterexample —
a charge accepts negative energy and capacity can increase.) -/
theorem battery_capacity_soh_nonincreasing (capacity soc max_charge
    max_discharge efficiency degradation_rate temperature : ℚ)
    (ops : List BatteryOp) (i : ℕ)
    (hcap : 0 < capacity) (hrate : 0 ≤ degradation_rate)
    (hmc : 0 ≤ max_charge) (hmd : 0 ≤ max_discharge)
    (hpos : ∀ op ∈ ops, 0 < op.energy)
    (hvalid : (mkBattery capacity soc max_charge max_discharge efficiency
      degradation_rate temperature).validTrace ops)
    (hi : i < ops.length) :
    ((mkBattery capacity soc max_charge max_discharge efficiency
        degradation_rate temperature).runOps (ops.take (i+1))).capacity ≤
      ((mkBattery capacity soc max_charge max_discharge efficiency
        degradation_rate temperature).runOps (ops.take i)).capacity ∧
    ((mkBattery capacity soc max_charge max_discharge efficiency
        degradation_rate temperature).runOps (ops.take (i+1))).state_of_health ≤
      ((mkBattery capacity soc max_charge max_discharge efficiency
        degradation_rate temperature).runOps (ops.take i)).state_of_health :=
  runOps_take_adjacent_mono ops _ i ⟨hcap, hrate, hmc, hmd⟩
    (mkBattery_degConsistent capacity soc max_charge max_discharge efficiency
      degradation_rate temperature hcap) hpos hvalid hi

/-- Witness for `battery_capacity_soh_nonincreasing`: fresh battery
(capacity 10, soc 0, ratings 5, efficiency 9/10, default rate), operation
sequence `charge(3); discharge(2)`, comparing observations 1 and 2. -/
theorem battery_capacity_soh_nonincreasing_witness :
    ((0:ℚ) < 10) ∧ ((0:ℚ) ≤ 1/20000) ∧ ((0:ℚ) ≤ 5) ∧
    (∀ op ∈ [BatteryOp.charge 3, BatteryOp.discharge 2], 0 < op.energy) ∧
    ((mkBattery 10 0 5 5 (9/10) (1/20000) 25).validTrace
      [BatteryOp.charge 3, BatteryOp.discharge 2]) ∧
    ((1:ℕ) < 2) ∧
    (((mkBattery 10 0 5 5 (9/10) (1/20000) 25).runOps
        ([BatteryOp.charge 3, BatteryOp.discharge 2].take 2)).capacity ≤
      ((mkBattery 10 0 5 5 (9/10) (1/20000) 25).runOps
        ([BatteryOp.charge 3, BatteryOp.discharge 2].take 1)).capacity ∧
     ((mkBattery 10 0 5 5 (9/10) (1/20000) 25).runOps
        ([BatteryOp.charge 3, BatteryOp.discharge 2].take 2)).state_of_health ≤
      ((mkBattery 10 0 5 5 (9/10) (1/20000) 25).runOps
        ([BatteryOp.charge 3, BatteryOp.discharge 2].take 1)).state_of_health) :=
  ⟨by norm_num, by norm_num, by norm_num,
   by intro op hop; fin_cases hop <;> norm_num [BatteryOp.energy],
   by norm_num [Battery.validTrace, BatteryOp.apply, mkBattery, Battery.charge,
     Battery.update_degradation, Battery.update_efficiency,
     Battery.get_temperature_factor],
   by norm_num,
   battery_capacity_soh_nonincreasing 10 0 5 5 (9/10) (1/20000) 25
     [BatteryOp.charge 3, BatteryOp.discharge 2] 1
     (by norm_num) (by norm_num) (by norm_num) (by norm_num)
     (by intro op hop; fin_cases hop <;> norm_num [BatteryOp.energy])
     (by norm_num [Battery.validTrace, BatteryOp.apply, mkBattery, Battery.charge,
       Battery.update_degradation, Battery.update_efficiency,
       Battery.get_temperature_factor])
     (by norm_num)⟩

/-- Claim C8, counterexample: a freshly constructed battery at temperature
40 °C (a |deviation| of 15 from the optimal 25, giving temperature factor
0.98) satisfies `0 ≤ state_of_charge ≤ capacity`, yet `charge(0)` changes its
`efficiency` field from 0.9 to 0.882: the constructor sets
`efficiency = base` without the temperature factor, and the degradation
update triggered by `charge(0)` recomputes it with the factor. So `charge(0)`
does not leave all fields unchanged on every in-scope state. -/
theorem c8_zero_charge_changes_efficiency :
    ((mkBattery 10 4 5 5 (9/10) (1/20000) 40).charge 0).2.efficiency ≠
      (mkBattery 10 4 5 5 (9/10) (1/20000) 40).efficiency ∧
    (mkBattery 10 4 5 5 (9/10) (1/20000) 40).efficiency = 9/10 ∧
    ((mkBattery 10 4 5 5 (9/10) (1/20000) 40).charge 0).2.efficiency = 441/500 := by
  refine ⟨?_, ?_, ?_⟩ <;>
    norm_num [mkBattery, Battery.charge, Battery.update_degradation,
      Battery.update_efficiency, Battery.get_temperature_factor]

/-- Claim C8, amended: on a battery state whose derived fields agree with
what the degradation update recomputes (as holds for any state that has
already undergone an operation, and for states produced by the constructor
when the temperature deviates less than 10 °C from optimal — but not for a
fresh battery at extreme temperature, see the counterexample), with
`0 ≤ soc ≤ capacity`, non-negative ratings and peak tracking, `charge(0)` and
`discharge(0)` return 0 and leave every field unchanged — including the event
counters, which increment only for strictly positive requests. -/
theorem charge_discharge_zero_identity (b : Battery)
    (h0 : 0 ≤ b.soc) (h1 : b.soc ≤ b.capacity)
    (hmc : 0 ≤ b.max_charge) (hmd : 0 ≤ b.max_discharge)
    (hpk : 0 ≤ b.peak_power_reached)
    (hcons : b.degConsistent)
    (hcyc : b.cycles = b.total_throughput / (2 * b.original_capacity))
    (heff : b.efficiency = b.base_efficiency * b.get_temperature_factor *
      (b.state_of_health / 100)) :
    b.charge 0 = (0, b) ∧ b.discharge 0 = (0, b) := by
  have hcap0 : 0 ≤ b.capacity := h0.trans h1
  have hpk' : ¬ (b.peak_power_reached < 0) := not_lt.mpr hpk
  have hacc : min (0:ℚ) (min (min b.max_charge (b.capacity * 1))
      (b.capacity - b.soc)) = 0 :=
    min_eq_left (le_min (le_min hmc (by simpa using hcap0)) (sub_nonneg.mpr h1))
  have hsup : min (0:ℚ) (min (min b.max_discharge (b.capacity * 1)) b.soc) = 0 :=
    min_eq_left (le_min (le_min hmd (by simpa using hcap0)) h0)
  constructor
  · rw [charge_eq]
    simp only [hacc, add_zero, zero_mul, min_eq_left h1, gt_iff_lt,
      lt_self_iff_false, if_false, hpk', ite_false]
    simp only [← hcons.1, ← hcons.2, ← heff, ← hcyc]
  · rw [discharge_eq]
    simp only [hsup, add_zero, sub_zero, gt_iff_lt,
      lt_self_iff_false, if_false, hpk', ite_false]
    simp only [← hcons.1, ← hcons.2, ← heff, ← hcyc]

/-- Witness for `charge_discharge_zero_identity` on the freshly constructed
battery with capacity 10, soc 4, ratings 5, efficiency 9/10, temperature
25. -/
theorem charge_discharge_zero_identity_witness :
    (0 ≤ (mkBattery 10 4 5 5 (9/10) (1/20000) 25).soc) ∧
    ((mkBattery 10 4 5 5 (9/10) (1/20000) 25).soc ≤
      (mkBattery 10 4 5 5 (9/10) (1/20000) 25).capacity) ∧
    ((mkBattery 10 4 5 5 (9/10) (1/20000) 25).degConsistent) ∧
    ((mkBattery 10 4 5 5 (9/10) (1/20000) 25).charge 0 =
        (0, mkBattery 10 4 5 5 (9/10) (1/20000) 25) ∧
      (mkBattery 10 4 5 5 (9/10) (1/20000) 25).discharge 0 =
        (0, mkBattery 10 4 5 5 (9/10) (1/20000) 25)) :=
  ⟨by norm_num [mkBattery], by norm_num [mkBattery],
   by norm_num [Battery.degConsistent, mkBattery, degLoss],
   charge_discharge_zero_identity (mkBattery 10 4 5 5 (9/10) (1/20000) 25)
     (by norm_num [mkBattery]) (by norm_num [mkBattery]) (by norm_num [mkBattery])
     (by norm_num [mkBattery]) (by norm_num [mkBattery])
     (by norm_num [Battery.degConsistent, mkBattery, degLoss])
     (by norm_num [mkBattery])
     (by norm_num [mkBattery, Battery.get_temperature_factor])⟩

/-- Claim C9 (confirmed): `mpc_optimizer` is functionally identical to
`linear_optimizer` — for every solver, every input profile, battery, price
series, sell price, and every (unused) horizon and current hour, it returns
exactly the same full-horizon plan, because its body is a single delegating
call. -/
theorem mpc_equals_linear_optimizer (lp_solve : LPSolver)
    (load_profile solar_profile : List ℚ) (battery : Battery)
    (prices : List ℚ) (sell_price : ℚ) (horizon current_hour : ℕ) :
    mpc_optimizer lp_solve load_profile solar_profile battery prices sell_price
      horizon current_hour =
    linear_optimizer lp_solve load_profile solar_profile battery prices
      sell_price :=
  rfl

/-- Claim C10 (confirmed): for every name that is not one of the seven
registered strategy names, `get_strategy` (and `StrategyManager.get_strategy`)
silently returns the naive strategy; for a registered name it returns that
name's strategy. -/
theorem get_strategy_defaults_to_naive :
    (∀ name : String, name ∉ STRATEGIES.map Prod.fst →
      get_strategy name = StrategyTag.naive ∧
      mkStrategyManager.get_strategy name = StrategyTag.naive) ∧
    (∀ p ∈ STRATEGIES, get_strategy p.1 = p.2 ∧
      mkStrategyManager.get_strategy p.1 = p.2) := by
  constructor
  · intro name h
    simp only [STRATEGIES, List.map, List.mem_cons, List.mem_singleton] at h
    push_neg at h
    obtain ⟨h1, h2, h3, h4, h5, h6, h7, -⟩ := h
    have e1 : (name == "naive") = false := beq_eq_false_iff_ne.mpr h1
    have e2 : (name == "self_consumption") = false := beq_eq_false_iff_ne.mpr h2
    have e3 : (name == "peak_shaving") = false := beq_eq_false_iff_ne.mpr h3
    have e4 : (name == "time_of_use") = false := beq_eq_false_iff_ne.mpr h4
    have e5 : (name == "greedy") = false := beq_eq_false_iff_ne.mpr h5
    have e6 : (name == "linear_optimizer") = false := beq_eq_false_iff_ne.mpr h6
    have e7 : (name == "mpc") = false := beq_eq_false_iff_ne.mpr h7
    have : get_strategy name = StrategyTag.naive := by
      simp [get_strategy, STRATEGIES, List.lookup, e1, e2, e3, e4, e5, e6, e7]
    exact ⟨this, this⟩
  · intro p hp
    fin_cases hp <;> exact ⟨rfl, rfl⟩

/-- Witness for `get_strategy_defaults_to_naive` at the unregistered name
"battery_first". -/
theorem get_strategy_defaults_to_naive_witness :
    ("battery_first" ∉ STRATEGIES.map Prod.fst) ∧
    get_strategy "battery_first" = StrategyTag.naive ∧
    mkStrategyManager.get_strategy "battery_first" = StrategyTag.naive :=
  ⟨by decide,
   (get_strategy_defaults_to_naive.1 "battery_first" (by decide)).1,
   (get_strategy_defaults_to_naive.1 "battery_first" (by decide)).2⟩

/-- Claim C1: evaluation at the failing input. Greedy strategy (as invoked by
the stepwise driver, price 3 below the low-price threshold 4), one-hour
horizon with load 5, solar 0, battery capacity 10, soc 0, ratings 5: the
recorded ledger row has `solar + grid_buy + bat_discharge = 5` but
`load + grid_sell + bat_charge = 10` — the battery is charged with 5 kWh that
is never bought — so the hourly imbalance is -5, far beyond the 0.01 kWh
tolerance. -/
theorem greedy_low_price_violates_energy_balance :
    ((run_simulation_step (fun l s b p sp => greedy_scheduler l s b p sp 0) 5
        (mkBattery 10 0 5 5 (9/10) (1/20000) 25) [5] [0] [3]).map
      (fun r => r.solar + r.grid_buy + r.bat_discharge -
        (r.load + r.grid_sell + r.bat_charge))) = [-5] ∧
    (1/100 : ℚ) < |(-5 : ℚ)| := by
  constructor
  · norm_num [run_simulation_step, greedy_scheduler, self_consumption_scheduler,
      mkBattery, Battery.charge, Battery.discharge, Battery.update_degradation,
      Battery.update_efficiency, Battery.get_temperature_factor]
  · norm_num

/-- Claim C5: evaluation at the failing input. The stepwise driver calls
`time_of_use_scheduler` without a `current_hour` argument, so the Python
default 0 applies at every hour and no hour is ever treated as peak: over an
8-hour run with constant load 1, solar 0 and battery soc 5, every recorded
row — including peak hour 7 — has `grid_buy = 1` and `bat_discharge = 0`,
whereas the same scheduler invoked with `current_hour = 7` discharges
`min(1, 5, 5) = 1` and buys nothing. -/
theorem tou_peak_hour_not_honored :
    (((run_simulation_step (fun l s b p sp => time_of_use_scheduler l s b p sp 0) 5
        (mkBattery 10 5 5 5 (9/10) (1/20000) 25)
        [1,1,1,1,1,1,1,1] [0,0,0,0,0,0,0,0] [3,3,3,3,3,3,3,3]).map
      (fun r => (r.grid_buy, r.bat_discharge))) =
        [(1,0),(1,0),(1,0),(1,0),(1,0),(1,0),(1,0),(1,0)]) ∧
    time_of_use_scheduler 1 0 (mkBattery 10 5 5 5 (9/10) (1/20000) 25) 3 5 7 =
      { grid_buy := 0, grid_sell := 0, bat_charge := 0, bat_discharge := 1 } := by
  constructor
  · norm_num [run_simulation_step, time_of_use_scheduler, peak_hours, mkBattery]
  · norm_num [time_of_use_scheduler, peak_hours, mkBattery]

/-- Claim C6, counterexample: in the spec scenario (capacity 10, soc 0,
max_charge = max_discharge = 5, efficiency 9/10, degradation rate 0),
`charge(6)` does not return 6 — the 5 kW power rating also limits the
accepted energy. -/
theorem c6_spec_scenario_fails :
    ((mkBattery 10 0 5 5 (9/10) 0 25).charge 6).1 ≠ 6 := by
  norm_num [mkBattery, Battery.charge, Battery.update_degradation,
    Battery.update_efficiency, Battery.get_temperature_factor]

/-- Claim C6, amended: in that scenario `charge(6)` accepts
`min(6, 10, 5, 10) = 5` and soc becomes `5 × 0.9 = 4.5`; the subsequent
`discharge(10)` supplies `min(10, ~10, 5, 4.5) = 4.5` and soc becomes 0. -/
theorem c6_amended_scenario :
    ((mkBattery 10 0 5 5 (9/10) 0 25).charge 6).1 = 5 ∧
    ((mkBattery 10 0 5 5 (9/10) 0 25).charge 6).2.soc = 9/2 ∧
    (((mkBattery 10 0 5 5 (9/10) 0 25).charge 6).2.discharge 10).1 = 9/2 ∧
    (((mkBattery 10 0 5 5 (9/10) 0 25).charge 6).2.discharge 10).2.soc = 0 := by
  refine ⟨?_, ?_, ?_, ?_⟩ <;>
    norm_num [mkBattery, Battery.charge, Battery.discharge,
      Battery.update_degradation, Battery.update_efficiency,
      Battery.get_temperature_factor]
